import Mathlib

/-
Verification development for the CF authentication backend's login and
renewal flow (path_login.go). The Go functions of the source file are
shallowly embedded as pure Lean functions; external collaborators
(storage, the signature verifier, the CF API client, the CIDR utility)
are abstracted as explicit oracle parameters carried in environment
records, exactly at the call boundaries the source uses.
-/

set_option autoImplicit false

namespace CF

/-- Nanoseconds per second; Go durations (time.Duration) are counted in
nanoseconds, and the source divides by time.Second when printing a
tolerance in seconds. -/
def nsPerSec : Int := 1000000000

/-- Message built by the source for a signing time older than the window
(fmt.Sprintf at the "request is too old" branch). Times and durations are
embedded as integer nanosecond counts. -/
def tooOldMsg (signingTime timeReceived notBefore : Int) : String :=
  "request is too old; signed at " ++ toString signingTime ++
    " but received request at " ++ toString timeReceived ++
    "; allowable seconds old is " ++ toString (notBefore / nsPerSec)

/-- Message built by the source for a signing time beyond the future window
(fmt.Sprintf at the "request is too far in the future" branch). -/
def tooFutureMsg (signingTime timeReceived notAfter : Int) : String :=
  "request is too far in the future; signed at " ++ toString signingTime ++
    " but received request at " ++ toString timeReceived ++
    "; allowable seconds in the future is " ++ toString (notAfter / nsPerSec)

/-- The temporal-window check of operationLoginUpdate: computes
oldestAllowableSigningTime and furthestFutureAllowableSigningTime from the
time captured on entry and rejects (with a message) a signing time strictly
before the former or strictly after the latter. Returns none when the
signing time is accepted. Instants are integer nanosecond timestamps. -/
def timeWindowCheck (signingTime timeReceived notBefore notAfter : Int) : Option String :=
  let oldestAllowableSigningTime := timeReceived - notBefore
  let furthestFutureAllowableSigningTime := timeReceived + notAfter
  if signingTime < oldestAllowableSigningTime then
    some (tooOldMsg signingTime timeReceived notBefore)
  else if furthestFutureAllowableSigningTime < signingTime then
    some (tooFutureMsg signingTime timeReceived notAfter)
  else none

/-- Models strutil.StrListContains from the external go-secure-stdlib
dependency: a linear scan of the list testing string equality with the
needle. -/
def strListContains (haystack : List String) (needle : String) : Bool :=
  haystack.contains needle

/-- meetsBoundConstraints from the source: an empty constraint list places
no restriction; otherwise the certificate value must be a member of the
constraint list. -/
def meetsBoundConstraints (certValue : String) (constraints : List String) : Bool :=
  if constraints.length = 0 then
    true
  else
    strListContains constraints certValue

/-- An IPv4 address as four octets. -/
structure IPv4 where
  a : Nat
  b : Nat
  c : Nat
  d : Nat
  deriving DecidableEq, Repr

/-- Splits a character list on a separator character, keeping empty
segments, the way Go's strings.Split does for a one-character separator. -/
def splitOnChar (sep : Char) : List Char → List (List Char)
  | [] => [[]]
  | c :: rest =>
    let r := splitOnChar sep rest
    if c = sep then
      [] :: r
    else
      match r with
      | [] => [[c]]
      | h :: t => (c :: h) :: t

/-- Accumulates a decimal value from a digit list. -/
def digitsToNat : List Char → Nat → Nat
  | [], acc => acc
  | c :: cs, acc => digitsToNat cs (acc * 10 + (c.toNat - 48))

/-- One dotted-quad field as Go's net.ParseIP accepts it: non-empty, all
decimal digits, no leading zero, value at most 255. -/
def parseIPv4Field (cs : List Char) : Option Nat :=
  if cs.isEmpty then none
  else if !(cs.all Char.isDigit) then none
  else if 1 < cs.length ∧ cs.headD '0' = '0' then none
  else
    let n := digitsToNat cs 0
    if n ≤ 255 then some n else none

/-- Models the Go standard library's net.ParseIP on the IPv4 dotted-quad
textual form (the form CF instance certificates and observed remote
addresses use); any other input yields none, as a failed parse does in Go. -/
def goParseIP (s : String) : Option IPv4 :=
  match splitOnChar '.' s.toList with
  | [p1, p2, p3, p4] =>
    match parseIPv4Field p1, parseIPv4Field p2, parseIPv4Field p3, parseIPv4Field p4 with
    | some x1, some x2, some x3, some x4 => some ⟨x1, x2, x3, x4⟩
    | _, _, _, _ => none
  | _ => none

/-- matchesIPAddress from the source: the remote address is split on "/"
(some remote addresses arrive like "10.255.181.105/32"), the part before
the first slash is parsed as an IP, and the certificate IP must equal it
(net.IP.Equal; on the IPv4 domain modelled here this is equality of parse
results, two failed parses being equal like two nil IPs in Go). -/
def matchesIPAddress (remoteAddr : String) (certIP : Option IPv4) : Bool :=
  let parts := splitOnChar '/' remoteAddr.toList
  let reqIPAddr := goParseIP (String.mk (parts.headD []))
  if certIP = reqIPAddr then
    true
  else
    false

/-- The identity fields carried by a CF instance certificate
(models.CFCertificate). -/
structure CFCertificate where
  instanceID : String
  orgID : String
  spaceID : String
  appID : String
  ipAddress : String
  deriving DecidableEq, Repr

/-- A role entry as read from storage (models.RoleEntry), restricted to the
fields path_login.go reads. Durations are integer nanoseconds. -/
structure RoleEntry where
  tokenBoundCIDRs : List String
  boundInstanceIDs : List String
  boundAppIDs : List String
  boundOrgIDs : List String
  boundSpaceIDs : List String
  disableIPMatching : Bool
  tokenTTL : Int
  tokenMaxTTL : Int
  tokenPeriod : Int
  tokenPolicies : List String
  deriving DecidableEq, Repr

/-- An application record returned by the CF API (cfclient.App), restricted
to the fields the source reads. -/
structure CFApp where
  guid : String
  spaceGuid : String
  instances : Int
  name : String
  deriving DecidableEq, Repr

/-- An organization record returned by the CF API. -/
structure CFOrg where
  guid : String
  name : String
  deriving DecidableEq, Repr

/-- A space record returned by the CF API. -/
structure CFSpace where
  guid : String
  organizationGuid : String
  name : String
  deriving DecidableEq, Repr

/-- The CF API client as the oracle boundary the source calls through:
lookup by GUID either fails with an error string or returns a record. -/
structure CFClient where
  appByGuid : String → Except String CFApp
  getOrgByGuid : String → Except String CFOrg
  getSpaceByGuid : String → Except String CFSpace

/-- validate from the source: IP-equality check (skipped when the role
disables IP matching), the four bound-constraint checks, then the CF API
cross-checks on app, org and space. Returns none on success and the error
message otherwise (the caller wraps it in a soft error response). -/
def validate (client : CFClient) (role : RoleEntry) (cfCert : CFCertificate)
    (reqConnRemoteAddr : String) : Option String :=
  if !role.disableIPMatching && !(matchesIPAddress reqConnRemoteAddr (goParseIP cfCert.ipAddress)) then
    some "no matching IP address"
  else if !(meetsBoundConstraints cfCert.instanceID role.boundInstanceIDs) then
    some ("instance ID " ++ cfCert.instanceID ++ " doesn't match role constraints of " ++ toString role.boundInstanceIDs)
  else if !(meetsBoundConstraints cfCert.appID role.boundAppIDs) then
    some ("app ID " ++ cfCert.appID ++ " doesn't match role constraints of " ++ toString role.boundAppIDs)
  else if !(meetsBoundConstraints cfCert.orgID role.boundOrgIDs) then
    some ("org ID " ++ cfCert.orgID ++ " doesn't match role constraints of " ++ toString role.boundOrgIDs)
  else if !(meetsBoundConstraints cfCert.spaceID role.boundSpaceIDs) then
    some ("space ID " ++ cfCert.spaceID ++ " doesn't match role constraints of " ++ toString role.boundSpaceIDs)
  else
    match client.appByGuid cfCert.appID with
    | .error e => some e
    | .ok app =>
      if app.guid ≠ cfCert.appID then
        some ("cert app ID " ++ cfCert.appID ++ " doesn't match API's expected one of " ++ app.guid)
      else if app.spaceGuid ≠ cfCert.spaceID then
        some ("cert space ID " ++ cfCert.spaceID ++ " doesn't match API's expected one of " ++ app.spaceGuid)
      else if app.instances ≤ 0 then
        some "app doesn't have any live instances"
      else
        match client.getOrgByGuid cfCert.orgID with
        | .error e => some e
        | .ok org =>
          if org.guid ≠ cfCert.orgID then
            some ("cert org ID " ++ cfCert.orgID ++ " doesn't match API's expected one of " ++ org.guid)
          else
            match client.getSpaceByGuid cfCert.spaceID with
            | .error e => some e
            | .ok space =>
              if space.guid ≠ cfCert.spaceID then
                some ("cert space ID " ++ cfCert.spaceID ++ " doesn't match API's expected one of " ++ space.guid)
              else if space.organizationGuid ≠ cfCert.orgID then
                some ("cert org ID " ++ cfCert.orgID ++ " doesn't match API's expected one of " ++ space.organizationGuid)
              else
                none

/-- Sample CF API client whose lookups agree with sampleCert. -/
def sampleClient : CFClient where
  appByGuid := fun _ => .ok { guid := "app-guid", spaceGuid := "space-guid", instances := 2, name := "app-name" }
  getOrgByGuid := fun _ => .ok { guid := "org-guid", name := "org-name" }
  getSpaceByGuid := fun _ => .ok { guid := "space-guid", organizationGuid := "org-guid", name := "space-name" }

/-- Sample unconstrained role with IP matching disabled. -/
def sampleRoleIPOff : RoleEntry where
  tokenBoundCIDRs := []
  boundInstanceIDs := []
  boundAppIDs := []
  boundOrgIDs := []
  boundSpaceIDs := []
  disableIPMatching := true
  tokenTTL := 60
  tokenMaxTTL := 120
  tokenPeriod := 0
  tokenPolicies := ["default"]

/-- Sample certificate identity. -/
def sampleCert : CFCertificate where
  instanceID := "instance-1"
  orgID := "org-guid"
  spaceID := "space-guid"
  appID := "app-guid"
  ipAddress := "10.0.0.5"

/-- The login request's framework fields (all declared Required strings). -/
structure FieldData where
  role : String
  cf_instance_cert : String
  signing_time : String
  signature : String
  deriving DecidableEq, Repr

/-- Connection metadata of a request; in Go this is a nullable pointer, so
the environments below carry an Option of it. -/
structure Connection where
  remoteAddr : String
  deriving DecidableEq, Repr

/-- The trust configuration read from storage (models.Configuration),
restricted to the fields path_login.go reads. CA certificates are kept as
their PEM text. -/
structure Config where
  identityCACertificates : List String
  loginMaxSecNotBefore : Int
  loginMaxSecNotAfter : Int
  deriving DecidableEq, Repr

/-- A parsed x509 certificate, kept as its raw text: path_login.go only
passes certificates between the external crypto collaborators. -/
def Cert := String

instance : DecidableEq Cert := inferInstanceAs (DecidableEq String)

/-- The data the client must have signed (signatures.SignatureData). -/
structure SignatureData where
  signingTime : Int
  role : String
  cfInstanceCertContents : String
  deriving DecidableEq

/-- How a Go handler returning (response, error) comes back to the
framework: a successful response, a soft caller-visible error response
(logical.ErrorResponse), a hard internal error (nil response plus error),
the distinguished logical.ErrPermissionDenied error, or a runtime panic
(nil pointer dereference). -/
inductive GoResult (α : Type) where
  | ok (a : α)
  | errorResponse (msg : String)
  | internalError (msg : String)
  | errPermissionDenied
  | panicNilDeref
  deriving DecidableEq, Repr

/-- True exactly on the soft caller-visible error response shape. -/
def GoResult.isErrorResponse {α : Type} : GoResult α → Bool
  | .errorResponse _ => true
  | _ => false

/-- A Go interface value as getOrErr inspects it: a string, or some
non-string value (whose failed type assertion yields the empty string). -/
inductive GoValue where
  | str (s : String)
  | nonString
  deriving DecidableEq, Repr

/-- The auth object (logical.Auth) restricted to the fields path_login.go
writes and renewal reads: internal data, display name, alias, and the
token lifetime fields PopulateTokenAuth and renewal set. -/
structure AuthAlias where
  name : String
  metadata : List (String × String)
  deriving DecidableEq, Repr

/-- See AuthAlias; maps are association lists keyed by strings. -/
structure Auth where
  internalData : List (String × GoValue)
  displayName : String
  aliasData : AuthAlias
  ttl : Int
  maxTTL : Int
  period : Int
  policies : List String
  deriving DecidableEq, Repr

/-- Models the sdk's role.PopulateTokenAuth on the fields tracked here:
the role's token parameters are copied onto the auth object. -/
def populateTokenAuth (role : RoleEntry) (auth : Auth) : Auth :=
  { auth with
    ttl := role.tokenTTL
    maxTTL := role.tokenMaxTTL
    period := role.tokenPeriod
    policies := role.tokenPolicies }

/-- parseTime from the source: try the strict ISO-8601 profile first, then
the Bash default format, and fail if neither parses. The two time.Parse
calls are external collaborators, passed as oracle functions returning the
parsed instant in nanoseconds. -/
def parseTime (parseISO parseBash : String → Option Int) (signingTime : String) :
    Except String Int :=
  match parseISO signingTime with
  | some t => .ok t
  | none =>
    match parseBash signingTime with
    | some t => .ok t
    | none => .error ("couldn't parse " ++ signingTime)

/-- Everything operationLoginUpdate consumes, with each external
collaborator (storage, cidrutil, time.Parse, the certificate and signature
utilities, the CF client cache) as an oracle field at the exact call
boundary the source uses. timeReceived is the instant captured on entry. -/
structure LoginEnv where
  timeReceived : Int
  data : FieldData
  getRole : String → Except String (Option RoleEntry)
  connection : Option Connection
  remoteAddrIsOk : String → List String → Bool
  parseISOTime : String → Option Int
  parseBashTime : String → Option Int
  getConfig : Except String (Option Config)
  extractCertificates : String → Except String (Cert × Cert)
  verify : String → SignatureData → Except String Cert
  utilValidate : List String → Cert → Cert → Cert → Option String
  newCFCertificateFromx509 : Cert → Except String CFCertificate
  getCFClientOrRefresh : Except String CFClient
  getOrgName : CFClient → CFCertificate → Except String String
  getAppName : CFClient → CFCertificate → Except String String
  getSpaceName : CFClient → CFCertificate → Except String String

/-- The tail of operationLoginUpdate after the role has been resolved and
the CIDR gate passed: presence checks on signature, cf_instance_cert and
signing_time, time parsing, configuration lookup, the temporal window,
certificate extraction, signature verification, chain validation, identity
derivation, client acquisition, the validate cross-checks (note the
unconditional dereference of the request connection at that call), name
resolution, and assembly of the auth response. -/
def operationLoginRest (env : LoginEnv) (role : RoleEntry) : GoResult Auth :=
  let signature := env.data.signature
  if signature = "" then .errorResponse "'signature' is required" else
  let cfInstanceCertContents := env.data.cf_instance_cert
  if cfInstanceCertContents = "" then .errorResponse "'cf_instance_cert' is required" else
  let signingTimeRaw := env.data.signing_time
  if signingTimeRaw = "" then .errorResponse "'signing_time' is required" else
  match parseTime env.parseISOTime env.parseBashTime signingTimeRaw with
  | .error e => .errorResponse e
  | .ok signingTime =>
  match env.getConfig with
  | .error e => .internalError e
  | .ok none => .internalError "no CA is configured for verifying client certificates"
  | .ok (some config) =>
  match timeWindowCheck signingTime env.timeReceived config.loginMaxSecNotBefore config.loginMaxSecNotAfter with
  | some msg => .errorResponse msg
  | none =>
  match env.extractCertificates cfInstanceCertContents with
  | .error e => .errorResponse e
  | .ok (intermediateCert, identityCert) =>
  match env.verify signature ⟨signingTime, env.data.role, cfInstanceCertContents⟩ with
  | .error e => .errorResponse e
  | .ok signingCert =>
  match env.utilValidate config.identityCACertificates intermediateCert identityCert signingCert with
  | some e => .errorResponse e
  | none =>
  match env.newCFCertificateFromx509 signingCert with
  | .error e => .internalError e
  | .ok cfCert =>
  match env.getCFClientOrRefresh with
  | .error e => .errorResponse e
  | .ok client =>
  match env.connection with
  | none => .panicNilDeref
  | some conn =>
  match validate client role cfCert conn.remoteAddr with
  | some e => .errorResponse e
  | none =>
  match env.getOrgName client cfCert with
  | .error e => .internalError e
  | .ok orgName =>
  match env.getAppName client cfCert with
  | .error e => .internalError e
  | .ok appName =>
  match env.getSpaceName client cfCert with
  | .error e => .internalError e
  | .ok spaceName =>
  .ok (populateTokenAuth role
    { internalData := [("role", .str env.data.role), ("instance_id", .str cfCert.instanceID), ("ip_address", .str cfCert.ipAddress)]
      displayName := cfCert.instanceID
      aliasData := { name := cfCert.appID
                     metadata := [("org_id", cfCert.orgID), ("app_id", cfCert.appID), ("space_id", cfCert.spaceID), ("org_name", orgName), ("app_name", appName), ("space_name", spaceName)] }
      ttl := 0
      maxTTL := 0
      period := 0
      policies := [] })

/-- operationLoginUpdate from the source: require a non-empty role name,
resolve the role (a missing role is returned as a hard error), run the
bound-CIDR gate (permission denied when connection metadata is absent or
the remote address fails the CIDR check), then continue with
operationLoginRest. -/
def operationLoginUpdate (env : LoginEnv) : GoResult Auth :=
  let roleName := env.data.role
  if roleName = "" then .errorResponse "'role-name' is required" else
  match env.getRole roleName with
  | .error e => .internalError e
  | .ok none => .internalError "no matching role"
  | .ok (some role) =>
    if 0 < role.tokenBoundCIDRs.length then
      match env.connection with
      | none => .errPermissionDenied
      | some conn =>
        if !(env.remoteAddrIsOk conn.remoteAddr role.tokenBoundCIDRs) then
          .errPermissionDenied
        else
          operationLoginRest env role
    else
      operationLoginRest env role

/-- Claim C2: for all signing times and non-negative tolerances, the login
time-window check accepts t iff now - before ≤ t ≤ now + after (both
boundaries included), and a violation yields a rejection whose message ends
with the configured tolerance expressed in seconds. -/
theorem c2_time_window_inclusive (t now b a : Int) (hb : 0 ≤ b) (ha : 0 ≤ a) :
    (timeWindowCheck t now b a = none ↔ (now - b ≤ t ∧ t ≤ now + a))
    ∧ timeWindowCheck (now - b) now b a = none
    ∧ timeWindowCheck (now + a) now b a = none
    ∧ (t < now - b → ∃ pre, timeWindowCheck t now b a = some (pre ++ toString (b / nsPerSec)))
    ∧ (now + a < t → ∃ pre, timeWindowCheck t now b a = some (pre ++ toString (a / nsPerSec))) := by
  refine ⟨?_, ?_, ?_, ?_, ?_⟩
  · simp only [timeWindowCheck]
    split_ifs with h1 h2
    · simp only [reduceCtorEq, false_iff]
      omega
    · simp only [reduceCtorEq, false_iff]
      omega
    · simp only [true_iff]
      omega
  · simp only [timeWindowCheck]
    split_ifs with h1 h2
    · omega
    · omega
    · rfl
  · simp only [timeWindowCheck]
    split_ifs with h1 h2
    · omega
    · omega
    · rfl
  · intro h
    refine ⟨"request is too old; signed at " ++ toString t ++
      " but received request at " ++ toString now ++
      "; allowable seconds old is ", ?_⟩
    simp only [timeWindowCheck]
    rw [if_pos h]
    rfl
  · intro h
    refine ⟨"request is too far in the future; signed at " ++ toString t ++
      " but received request at " ++ toString now ++
      "; allowable seconds in the future is ", ?_⟩
    simp only [timeWindowCheck]
    rw [if_neg (by omega), if_pos h]
    rfl

/-- Witness for C2 at t = 8, now = 10, before = 2, after = 3. -/
theorem c2_time_window_inclusive_witness :
    (0 : Int) ≤ 2 ∧ (0 : Int) ≤ 3 ∧
    ((timeWindowCheck 8 10 2 3 = none ↔ ((10 : Int) - 2 ≤ 8 ∧ (8 : Int) ≤ 10 + 3))
     ∧ timeWindowCheck (10 - 2) 10 2 3 = none
     ∧ timeWindowCheck (10 + 3) 10 2 3 = none
     ∧ ((8 : Int) < 10 - 2 → ∃ pre, timeWindowCheck 8 10 2 3 = some (pre ++ toString ((2 : Int) / nsPerSec)))
     ∧ ((10 : Int) + 3 < 8 → ∃ pre, timeWindowCheck 8 10 2 3 = some (pre ++ toString ((3 : Int) / nsPerSec)))) :=
  ⟨by decide, by decide, c2_time_window_inclusive 8 10 2 3 (by decide) (by decide)⟩

/-- Claim C6: meetsBoundConstraints accepts everything when the constraint
list is empty, and for a non-empty list accepts exactly the exact-string
members; in particular "app-1" does not meet the constraint list
["app-12"]. -/
theorem c6_meets_bound_constraints (v : String) (cs : List String) (h : cs ≠ []) :
    meetsBoundConstraints v [] = true
    ∧ (meetsBoundConstraints v cs = true ↔ v ∈ cs)
    ∧ meetsBoundConstraints "app-1" ["app-12"] = false := by
  refine ⟨rfl, ?_, by decide⟩
  have hlen : ¬ cs.length = 0 := by
    simpa using h
  simp only [meetsBoundConstraints, strListContains, if_neg hlen]
  simp [List.contains_iff_exists_mem_beq]

/-- Witness for C6 with the non-empty constraint list ["a", "b"]. -/
theorem c6_meets_bound_constraints_witness :
    meetsBoundConstraints "b" [] = true
    ∧ (meetsBoundConstraints "b" ["a", "b"] = true ↔ "b" ∈ ["a", "b"])
    ∧ meetsBoundConstraints "app-1" ["app-12"] = false :=
  c6_meets_bound_constraints "b" ["a", "b"] (by decide)

/-- Claim C7: matchesIPAddress strips a "/subnet" suffix from the remote
address before exact IP equality ("10.0.0.5/32" matches 10.0.0.5, while
"10.0.0.5" does not match 10.0.0.6), and validate ignores the remote
address entirely for a role whose DisableIPMatching flag is set. -/
theorem c7_matches_ip_address (client : CFClient) (role : RoleEntry)
    (cfCert : CFCertificate) (addr addr2 : String)
    (h : role.disableIPMatching = true) :
    matchesIPAddress "10.0.0.5/32" (goParseIP "10.0.0.5") = true
    ∧ matchesIPAddress "10.0.0.5" (goParseIP "10.0.0.6") = false
    ∧ validate client role cfCert addr = validate client role cfCert addr2 := by
  refine ⟨by decide, by decide, ?_⟩
  simp only [validate, h, Bool.not_true, Bool.false_and, Bool.false_eq_true, if_false]

/-- Witness for C7 on the sample role with IP matching disabled and two
different remote addresses. -/
theorem c7_matches_ip_address_witness :
    matchesIPAddress "10.0.0.5/32" (goParseIP "10.0.0.5") = true
    ∧ matchesIPAddress "10.0.0.5" (goParseIP "10.0.0.6") = false
    ∧ validate sampleClient sampleRoleIPOff sampleCert "1.2.3.4"
      = validate sampleClient sampleRoleIPOff sampleCert "5.6.7.8" :=
  c7_matches_ip_address sampleClient sampleRoleIPOff sampleCert "1.2.3.4" "5.6.7.8" rfl

/-- The shapes getOrErr's type switch distinguishes: a string-keyed map of
interface values, a string-keyed map of strings, or any other type. -/
inductive GoDyn where
  | mapStrIface (m : List (String × GoValue))
  | mapStrStr (m : List (String × String))
  | otherType
  deriving DecidableEq, Repr

/-- Failed type assertion to string yields Go's zero value "". -/
def goAssertString : GoValue → String
  | .str s => s
  | .nonString => ""

/-- The error text for a key absent from the map ("unable to retrieve %q
during renewal"). -/
def missingFieldMsg (fieldName : String) : String :=
  "unable to retrieve \"" ++ fieldName ++ "\" during renewal"

/-- The error text for a present interface value that is not a non-empty
string ("unable to retrieve %q during renewal, not a string"). -/
def notAStringMsg (fieldName : String) : String :=
  "unable to retrieve \"" ++ fieldName ++ "\" during renewal, not a string"

/-- getOrErr from the source: pull a string out of a dynamically-typed map.
For a map of interface values, a missing key errors, and a present value
whose string assertion comes out empty (a non-string, or the empty string)
errors with the "not a string" message. For a map of strings, only a
missing key errors; a present empty string is returned as-is. -/
def getOrErr (fieldName : String) (given : GoDyn) : Except String String :=
  match given with
  | .mapStrIface givenMap =>
    match givenMap.lookup fieldName with
    | none => .error (missingFieldMsg fieldName)
    | some vIfc =>
      let v := goAssertString vIfc
      if v = "" then .error (notAStringMsg fieldName)
      else .ok v
  | .mapStrStr givenMap =>
    match givenMap.lookup fieldName with
    | none => .error (missingFieldMsg fieldName)
    | some v => .ok v
  | .otherType => .error ("unrecognized type for structure containing " ++ fieldName)

/-- Everything pathLoginRenew consumes: the stored auth object under
renewal, the storage and CF collaborators, the certificate reconstruction
(models.NewCFCertificate, returning a value and a possibly-nil error), the
request connection, and the cached-client taint flag as it stands on
entry. -/
structure RenewEnv where
  cfClientTainted : Bool
  getConfig : Except String (Option Config)
  getRole : String → Except String (Option RoleEntry)
  auth : Auth
  newCFCertificate : String → String → String → String → String → CFCertificate × Option String
  getCFClientOrRefresh : Except String CFClient
  connection : Option Connection

/-- pathLoginRenew from the source: load configuration, extract the six
stored fields through getOrErr (role, instance_id, ip_address from the
internal data; org_id, space_id, app_id from the alias metadata;
extraction failures are returned as hard errors), resolve the role,
reconstruct the certificate (its error result is overwritten unread by the
client-acquisition call on the next statement), acquire the client, re-run
validate (failure taints the cached client and returns a soft rejection),
and on success return the original auth object with exactly the TTL,
MaxTTL and Period fields set to the role's current values. The second
component of the result is the taint flag after the call. -/
def pathLoginRenew (env : RenewEnv) : GoResult Auth × Bool :=
  match env.getConfig with
  | .error e => (.internalError e, env.cfClientTainted)
  | .ok none => (.internalError "no configuration is available for reaching the CF API", env.cfClientTainted)
  | .ok (some _config) =>
  match getOrErr "role" (.mapStrIface env.auth.internalData) with
  | .error e => (.internalError e, env.cfClientTainted)
  | .ok roleName =>
  match env.getRole roleName with
  | .error e => (.internalError e, env.cfClientTainted)
  | .ok none => (.internalError "no matching role", env.cfClientTainted)
  | .ok (some role) =>
  match getOrErr "instance_id" (.mapStrIface env.auth.internalData) with
  | .error e => (.internalError e, env.cfClientTainted)
  | .ok instanceID =>
  match getOrErr "ip_address" (.mapStrIface env.auth.internalData) with
  | .error e => (.internalError e, env.cfClientTainted)
  | .ok ipAddr =>
  match getOrErr "org_id" (.mapStrStr env.auth.aliasData.metadata) with
  | .error e => (.internalError e, env.cfClientTainted)
  | .ok orgID =>
  match getOrErr "space_id" (.mapStrStr env.auth.aliasData.metadata) with
  | .error e => (.internalError e, env.cfClientTainted)
  | .ok spaceID =>
  match getOrErr "app_id" (.mapStrStr env.auth.aliasData.metadata) with
  | .error e => (.internalError e, env.cfClientTainted)
  | .ok appID =>
  let cfCert := (env.newCFCertificate instanceID orgID spaceID appID ipAddr).1
  match env.getCFClientOrRefresh with
  | .error e => (.errorResponse e, env.cfClientTainted)
  | .ok client =>
  match env.connection with
  | none => (.panicNilDeref, env.cfClientTainted)
  | some conn =>
  match validate client role cfCert conn.remoteAddr with
  | some e => (.errorResponse e, true)
  | none =>
    (.ok { env.auth with ttl := role.tokenTTL, maxTTL := role.tokenMaxTTL, period := role.tokenPeriod },
     env.cfClientTainted)

/-- Sample field data for a well-formed login request. -/
def baseFieldData : FieldData where
  role := "test-role"
  cf_instance_cert := "CERT PEM"
  signing_time := "2006-01-02T15:04:05Z"
  signature := "sig"

/-- Sample trust configuration: five minutes backward tolerance, one
minute forward. -/
def sampleConfig : Config where
  identityCACertificates := ["ca"]
  loginMaxSecNotBefore := 300 * nsPerSec
  loginMaxSecNotAfter := 60 * nsPerSec

/-- Sample login environment whose role lookup finds no role; every other
collaborator behaves. -/
def c1Env : LoginEnv where
  timeReceived := 1000
  data := baseFieldData
  getRole := fun _ => .ok none
  connection := some { remoteAddr := "10.0.0.5" }
  remoteAddrIsOk := fun _ _ => true
  parseISOTime := fun _ => some 1000
  parseBashTime := fun _ => none
  getConfig := .ok (some sampleConfig)
  extractCertificates := fun s => .ok (s, s)
  verify := fun _ _ => .ok "signing-cert"
  utilValidate := fun _ _ _ _ => none
  newCFCertificateFromx509 := fun _ => .ok sampleCert
  getCFClientOrRefresh := .ok sampleClient
  getOrgName := fun _ _ => .ok "org-name"
  getAppName := fun _ _ => .ok "app-name"
  getSpaceName := fun _ _ => .ok "space-name"

/-- Sample role bound to a CIDR block. -/
def sampleRoleCIDR : RoleEntry :=
  { sampleRoleIPOff with tokenBoundCIDRs := ["10.0.0.0/8"], disableIPMatching := false }

/-- Sample login environment: the role is CIDR-bound and the request
carries no connection metadata. -/
def c3Env : LoginEnv :=
  { c1Env with getRole := fun _ => .ok (some sampleRoleCIDR), connection := none }

/-- Sample login environment: unconstrained role, no connection metadata,
every collaborator succeeding, so the flow reaches the validate call. -/
def c8Env : LoginEnv :=
  { c1Env with getRole := fun _ => .ok (some sampleRoleIPOff), connection := none }

/-- Claim C1, counterexample: with the role name resolving to no stored
role, operationLoginUpdate returns the hard internal error "no matching
role", not a soft caller-visible error response as the claim states. -/
theorem c1_missing_role_counterexample :
    operationLoginUpdate c1Env = .internalError "no matching role"
    ∧ (operationLoginUpdate c1Env).isErrorResponse = false :=
  ⟨rfl, rfl⟩

/-- Claim C1 as amended: for every login request whose role name resolves
to no stored role, operationLoginUpdate returns a hard internal error with
the message "no matching role" (nil response plus error), not a soft
caller-visible error response. -/
theorem c1_missing_role_hard_error (env : LoginEnv)
    (hr : env.data.role ≠ "") (h : env.getRole env.data.role = .ok none) :
    operationLoginUpdate env = .internalError "no matching role"
    ∧ (operationLoginUpdate env).isErrorResponse = false := by
  simp only [operationLoginUpdate, if_neg hr, h]
  exact ⟨trivial, rfl⟩

/-- Witness for the amended C1 on the sample environment. -/
theorem c1_missing_role_hard_error_witness :
    operationLoginUpdate c1Env = .internalError "no matching role"
    ∧ (operationLoginUpdate c1Env).isErrorResponse = false :=
  c1_missing_role_hard_error c1Env (by decide) rfl

/-- Claim C3: when the resolved role declares bound CIDRs and connection
metadata is absent, or the remote address fails the CIDR check, the login
returns the distinguished permission-denied error (not a generic soft
rejection); the statement holds for every environment regardless of the
signature, certificate and signing-time fields and of every later
collaborator, so the gate runs before any of those checks. -/
theorem c3_cidr_permission_denied (env : LoginEnv) (role : RoleEntry)
    (hr : env.data.role ≠ "")
    (hrole : env.getRole env.data.role = .ok (some role))
    (hcidr : role.tokenBoundCIDRs ≠ [])
    (h : env.connection = none
         ∨ ∃ conn, env.connection = some conn
             ∧ env.remoteAddrIsOk conn.remoteAddr role.tokenBoundCIDRs = false) :
    operationLoginUpdate env = .errPermissionDenied
    ∧ (operationLoginUpdate env).isErrorResponse = false := by
  have hlen : 0 < role.tokenBoundCIDRs.length := List.length_pos.mpr hcidr
  simp only [operationLoginUpdate, if_neg hr, hrole, if_pos hlen]
  rcases h with h | ⟨conn, hc, hok⟩
  · rw [h]
    exact ⟨rfl, rfl⟩
  · rw [hc]
    simp only [hok, Bool.not_false, if_true]
    exact ⟨trivial, rfl⟩

/-- Witness for C3: CIDR-bound role, no connection metadata, and a request
whose signature field is present (showing the gate fires first). -/
theorem c3_cidr_permission_denied_witness :
    operationLoginUpdate c3Env = .errPermissionDenied
    ∧ (operationLoginUpdate c3Env).isErrorResponse = false :=
  c3_cidr_permission_denied c3Env sampleRoleCIDR (by decide) rfl (by decide) (Or.inl rfl)

/-- Claim C8: with a role declaring no bound CIDRs (so the
connection-presence gate is skipped) and absent connection metadata, a
login request that passes every check up to the validate call hits the
unconditional dereference of the request connection: the embedded flow
yields the nil-dereference panic, not a rejection or error return. -/
theorem c8_nil_connection_panics (env : LoginEnv) (role : RoleEntry) (cfg : Config)
    (ic idc sc : Cert) (cfCert : CFCertificate) (client : CFClient) (t : Int)
    (hr : env.data.role ≠ "")
    (hrole : env.getRole env.data.role = .ok (some role))
    (hcidr : role.tokenBoundCIDRs = [])
    (hconn : env.connection = none)
    (hsig : env.data.signature ≠ "")
    (hcert : env.data.cf_instance_cert ≠ "")
    (hst : env.data.signing_time ≠ "")
    (hparse : parseTime env.parseISOTime env.parseBashTime env.data.signing_time = .ok t)
    (hcfg : env.getConfig = .ok (some cfg))
    (hwindow : timeWindowCheck t env.timeReceived cfg.loginMaxSecNotBefore cfg.loginMaxSecNotAfter = none)
    (hextract : env.extractCertificates env.data.cf_instance_cert = .ok (ic, idc))
    (hverify : env.verify env.data.signature ⟨t, env.data.role, env.data.cf_instance_cert⟩ = .ok sc)
    (hchain : env.utilValidate cfg.identityCACertificates ic idc sc = none)
    (hnewcert : env.newCFCertificateFromx509 sc = .ok cfCert)
    (hclient : env.getCFClientOrRefresh = .ok client) :
    operationLoginUpdate env = .panicNilDeref := by
  have hlen : ¬ 0 < role.tokenBoundCIDRs.length := by
    simp [hcidr]
  simp only [operationLoginUpdate, if_neg hr, hrole, if_neg hlen, operationLoginRest,
    if_neg hsig, if_neg hcert, if_neg hst, hparse, hcfg, hwindow, hextract, hverify,
    hchain, hnewcert, hclient, hconn]

/-- Witness for C8 on the sample environment with every collaborator
succeeding and no connection metadata. -/
theorem c8_nil_connection_panics_witness :
    operationLoginUpdate c8Env = .panicNilDeref :=
  c8_nil_connection_panics c8Env sampleRoleIPOff sampleConfig
    "CERT PEM" "CERT PEM" "signing-cert" sampleCert sampleClient 1000
    (by decide) rfl rfl rfl (by decide) (by decide) (by decide)
    rfl rfl (by decide) rfl rfl rfl rfl rfl

/-- Sample stored auth object as a successful login for sampleCert under
sampleRoleIPOff would produce it. -/
def sampleAuth : Auth where
  internalData := [("role", .str "test-role"), ("instance_id", .str "instance-1"), ("ip_address", .str "10.0.0.5")]
  displayName := "instance-1"
  aliasData := { name := "app-guid"
                 metadata := [("org_id", "org-guid"), ("app_id", "app-guid"), ("space_id", "space-guid"), ("org_name", "org-name"), ("app_name", "app-name"), ("space_name", "space-name")] }
  ttl := 30
  maxTTL := 90
  period := 0
  policies := ["default"]

/-- Sample renewal environment on which every step succeeds. -/
def sampleRenewEnv : RenewEnv where
  cfClientTainted := false
  getConfig := .ok (some sampleConfig)
  getRole := fun _ => .ok (some sampleRoleIPOff)
  auth := sampleAuth
  newCFCertificate := fun i o s a ip =>
    ({ instanceID := i, orgID := o, spaceID := s, appID := a, ipAddress := ip }, none)
  getCFClientOrRefresh := .ok sampleClient
  connection := some { remoteAddr := "10.0.0.5" }

/-- Sample role whose instance-ID constraint the stored identity fails. -/
def sampleRoleBound : RoleEntry :=
  { sampleRoleIPOff with boundInstanceIDs := ["other-instance"] }

/-- Sample renewal environment whose cross-check fails (bound instance ID
mismatch). -/
def sampleRenewEnvFail : RenewEnv :=
  { sampleRenewEnv with getRole := fun _ => .ok (some sampleRoleBound) }

/-- Sample stored auth whose instance_id is present but empty. -/
def c4Auth : Auth :=
  { sampleAuth with
    internalData := [("role", .str "test-role"), ("instance_id", .str ""), ("ip_address", .str "10.0.0.5")] }

/-- Sample renewal environment over the corrupted stored auth. -/
def c4RenewEnv : RenewEnv :=
  { sampleRenewEnv with auth := c4Auth }

/-- Claim C4: during renewal, a required field absent from the stored maps
makes getOrErr fail, and every extraction failure is returned by
pathLoginRenew as a hard internal error (not a caller-visible rejection);
a stored instance_id present as the empty string fails with the "not a
string" message. -/
theorem c4_renewal_missing_field_hard_error (env : RenewEnv) (cfg : Config)
    (role : RoleEntry) (roleName instanceID ipAddr orgID spaceID : String)
    (f : String) (mi : List (String × GoValue)) (ms : List (String × String))
    (hcfg : env.getConfig = .ok (some cfg)) :
    (mi.lookup f = none → getOrErr f (.mapStrIface mi) = .error (missingFieldMsg f))
    ∧ (ms.lookup f = none → getOrErr f (.mapStrStr ms) = .error (missingFieldMsg f))
    ∧ (mi.lookup f = some (.str "") → getOrErr f (.mapStrIface mi) = .error (notAStringMsg f))
    ∧ (∀ e, getOrErr "role" (.mapStrIface env.auth.internalData) = .error e →
        pathLoginRenew env = (.internalError e, env.cfClientTainted))
    ∧ (∀ e, getOrErr "role" (.mapStrIface env.auth.internalData) = .ok roleName →
        env.getRole roleName = .ok (some role) →
        getOrErr "instance_id" (.mapStrIface env.auth.internalData) = .error e →
        pathLoginRenew env = (.internalError e, env.cfClientTainted))
    ∧ (∀ e, getOrErr "role" (.mapStrIface env.auth.internalData) = .ok roleName →
        env.getRole roleName = .ok (some role) →
        getOrErr "instance_id" (.mapStrIface env.auth.internalData) = .ok instanceID →
        getOrErr "ip_address" (.mapStrIface env.auth.internalData) = .error e →
        pathLoginRenew env = (.internalError e, env.cfClientTainted))
    ∧ (∀ e, getOrErr "role" (.mapStrIface env.auth.internalData) = .ok roleName →
        env.getRole roleName = .ok (some role) →
        getOrErr "instance_id" (.mapStrIface env.auth.internalData) = .ok instanceID →
        getOrErr "ip_address" (.mapStrIface env.auth.internalData) = .ok ipAddr →
        getOrErr "org_id" (.mapStrStr env.auth.aliasData.metadata) = .error e →
        pathLoginRenew env = (.internalError e, env.cfClientTainted))
    ∧ (∀ e, getOrErr "role" (.mapStrIface env.auth.internalData) = .ok roleName →
        env.getRole roleName = .ok (some role) →
        getOrErr "instance_id" (.mapStrIface env.auth.internalData) = .ok instanceID →
        getOrErr "ip_address" (.mapStrIface env.auth.internalData) = .ok ipAddr →
        getOrErr "org_id" (.mapStrStr env.auth.aliasData.metadata) = .ok orgID →
        getOrErr "space_id" (.mapStrStr env.auth.aliasData.metadata) = .error e →
        pathLoginRenew env = (.internalError e, env.cfClientTainted))
    ∧ (∀ e, getOrErr "role" (.mapStrIface env.auth.internalData) = .ok roleName →
        env.getRole roleName = .ok (some role) →
        getOrErr "instance_id" (.mapStrIface env.auth.internalData) = .ok instanceID →
        getOrErr "ip_address" (.mapStrIface env.auth.internalData) = .ok ipAddr →
        getOrErr "org_id" (.mapStrStr env.auth.aliasData.metadata) = .ok orgID →
        getOrErr "space_id" (.mapStrStr env.auth.aliasData.metadata) = .ok spaceID →
        getOrErr "app_id" (.mapStrStr env.auth.aliasData.metadata) = .error e →
        pathLoginRenew env = (.internalError e, env.cfClientTainted)) := by
  refine ⟨?_, ?_, ?_, ?_, ?_, ?_, ?_, ?_, ?_⟩
  · intro h
    simp [getOrErr, h]
  · intro h
    simp [getOrErr, h]
  · intro h
    simp [getOrErr, h, goAssertString]
  · intro e he
    simp only [pathLoginRenew, hcfg, he]
  · intro e hrn hrole he
    simp only [pathLoginRenew, hcfg, hrn, hrole, he]
  · intro e hrn hrole hi he
    simp only [pathLoginRenew, hcfg, hrn, hrole, hi, he]
  · intro e hrn hrole hi hip he
    simp only [pathLoginRenew, hcfg, hrn, hrole, hi, hip, he]
  · intro e hrn hrole hi hip ho he
    simp only [pathLoginRenew, hcfg, hrn, hrole, hi, hip, ho, he]
  · intro e hrn hrole hi hip ho hsp he
    simp only [pathLoginRenew, hcfg, hrn, hrole, hi, hip, ho, hsp, he]

/-- Witness for C4: an empty map misses any key, and the corrupted sample
renewal (instance_id stored as "") ends in the "not a string" internal
error. -/
theorem c4_renewal_missing_field_hard_error_witness :
    getOrErr "x" (.mapStrIface []) = .error (missingFieldMsg "x")
    ∧ getOrErr "x" (.mapStrStr []) = .error (missingFieldMsg "x")
    ∧ getOrErr "instance_id" (.mapStrIface c4Auth.internalData) = .error (notAStringMsg "instance_id")
    ∧ pathLoginRenew c4RenewEnv = (.internalError (notAStringMsg "instance_id"), false) := by
  have h1 := c4_renewal_missing_field_hard_error c4RenewEnv sampleConfig sampleRoleIPOff
    "test-role" "" "" "" "" "x" [] [] rfl
  have h2 := c4_renewal_missing_field_hard_error c4RenewEnv sampleConfig sampleRoleIPOff
    "test-role" "" "" "" "" "instance_id" c4Auth.internalData [] rfl
  exact ⟨h1.1 rfl, h1.2.1 rfl, h2.2.2.1 rfl,
    h2.2.2.2.2.1 (notAStringMsg "instance_id") rfl rfl rfl⟩

/-- Claim C5: when every renewal extraction succeeds, a validate failure
taints the cached client and is returned as a soft error response, while a
validate success leaves the taint flag as it was and returns the original
auth object with exactly the TTL, MaxTTL and Period fields set to the
role's current values. -/
theorem c5_renew_taint_and_policy_update (env : RenewEnv) (cfg : Config)
    (role : RoleEntry) (roleName instanceID ipAddr orgID spaceID appID : String)
    (client : CFClient) (conn : Connection)
    (hcfg : env.getConfig = .ok (some cfg))
    (hrn : getOrErr "role" (.mapStrIface env.auth.internalData) = .ok roleName)
    (hrole : env.getRole roleName = .ok (some role))
    (hi : getOrErr "instance_id" (.mapStrIface env.auth.internalData) = .ok instanceID)
    (hip : getOrErr "ip_address" (.mapStrIface env.auth.internalData) = .ok ipAddr)
    (ho : getOrErr "org_id" (.mapStrStr env.auth.aliasData.metadata) = .ok orgID)
    (hsp : getOrErr "space_id" (.mapStrStr env.auth.aliasData.metadata) = .ok spaceID)
    (ha : getOrErr "app_id" (.mapStrStr env.auth.aliasData.metadata) = .ok appID)
    (hclient : env.getCFClientOrRefresh = .ok client)
    (hconn : env.connection = some conn) :
    (∀ e, validate client role (env.newCFCertificate instanceID orgID spaceID appID ipAddr).1 conn.remoteAddr = some e →
        pathLoginRenew env = (.errorResponse e, true))
    ∧ (validate client role (env.newCFCertificate instanceID orgID spaceID appID ipAddr).1 conn.remoteAddr = none →
        pathLoginRenew env
          = (.ok { env.auth with ttl := role.tokenTTL, maxTTL := role.tokenMaxTTL, period := role.tokenPeriod },
             env.cfClientTainted)) := by
  constructor
  · intro e hval
    simp only [pathLoginRenew, hcfg, hrn, hrole, hi, hip, ho, hsp, ha, hclient, hconn, hval]
  · intro hval
    simp only [pathLoginRenew, hcfg, hrn, hrole, hi, hip, ho, hsp, ha, hclient, hconn, hval]

/-- Witness for C5: the failing sample renewal taints the client and
returns a soft rejection; the passing sample renewal keeps the flag false
and re-applies the role's current token parameters. -/
theorem c5_renew_taint_and_policy_update_witness :
    pathLoginRenew sampleRenewEnvFail
      = (.errorResponse ("instance ID instance-1 doesn't match role constraints of " ++ toString ["other-instance"]), true)
    ∧ pathLoginRenew sampleRenewEnv
      = (.ok { sampleAuth with ttl := 60, maxTTL := 120, period := 0 }, false) := by
  constructor
  · exact (c5_renew_taint_and_policy_update sampleRenewEnvFail sampleConfig sampleRoleBound
      "test-role" "instance-1" "10.0.0.5" "org-guid" "space-guid" "app-guid"
      sampleClient { remoteAddr := "10.0.0.5" }
      rfl rfl rfl rfl rfl rfl rfl rfl rfl rfl).1
      ("instance ID instance-1 doesn't match role constraints of " ++ toString ["other-instance"]) rfl
  · exact (c5_renew_taint_and_policy_update sampleRenewEnv sampleConfig sampleRoleIPOff
      "test-role" "instance-1" "10.0.0.5" "org-guid" "space-guid" "app-guid"
      sampleClient { remoteAddr := "10.0.0.5" }
      rfl rfl rfl rfl rfl rfl rfl rfl rfl rfl).2 rfl

/-- Claim C9: pathLoginRenew never inspects the error result of the
certificate reconstruction: two reconstruction collaborators agreeing on
the certificate value but differing arbitrarily in their error results
give identical renewal outcomes. -/
theorem c9_cert_error_overwritten (env : RenewEnv)
    (f g : String → String → String → String → String → CFCertificate × Option String)
    (h : ∀ i o s a ip, (f i o s a ip).1 = (g i o s a ip).1) :
    pathLoginRenew { env with newCFCertificate := f }
      = pathLoginRenew { env with newCFCertificate := g } := by
  simp only [pathLoginRenew, h]

/-- Witness for C9: a reconstruction that reports an error and one that
reports none, with the same certificate value, renew identically. -/
theorem c9_cert_error_overwritten_witness :
    pathLoginRenew { sampleRenewEnv with newCFCertificate := fun i o s a ip =>
        ({ instanceID := i, orgID := o, spaceID := s, appID := a, ipAddress := ip }, some "reconstruction failed") }
      = pathLoginRenew { sampleRenewEnv with newCFCertificate := fun i o s a ip =>
        ({ instanceID := i, orgID := o, spaceID := s, appID := a, ipAddress := ip }, none) } :=
  c9_cert_error_overwritten sampleRenewEnv _ _ (fun _ _ _ _ _ => rfl)

/-- Claim C10: the empty-value detection of getOrErr applies only to the
interface-map shape: a present empty string in a map of strings (the alias
metadata shape) is returned successfully, while the same key empty in the
interface-map shape raises the "not a string" error. -/
theorem c10_empty_metadata_passes (f : String)
    (mi : List (String × GoValue)) (ms : List (String × String))
    (hs : ms.lookup f = some "") (hi : mi.lookup f = some (.str "")) :
    getOrErr f (.mapStrStr ms) = .ok ""
    ∧ getOrErr f (.mapStrIface mi) = .error (notAStringMsg f) := by
  constructor
  · simp [getOrErr, hs]
  · simp [getOrErr, hi, goAssertString]

/-- Witness for C10 on an alias-metadata map storing an empty org_id. -/
theorem c10_empty_metadata_passes_witness :
    getOrErr "org_id" (.mapStrStr [("org_id", "")]) = .ok ""
    ∧ getOrErr "org_id" (.mapStrIface [("org_id", .str "")]) = .error (notAStringMsg "org_id") :=
  c10_empty_metadata_passes "org_id" [("org_id", .str "")] [("org_id", "")] rfl rfl

end CF
